import Mathlib

/-!
Shallow embedding of the user-authentication service
(src/0x03-user_authentication_service/auth.py and db.py).

The persistence layer is modelled as an explicit list of user records;
SQLAlchemy query-by-keyword with one() is modelled by filtering the list and
distinguishing the no-result and multiple-result outcomes.  bcrypt hashing and
uuid4 generation are external libraries: a hash is modelled as the pair of the
salt drawn from a salt supply and the hashed password (bcrypt.checkpw succeeds
exactly when the passwords agree), and uuid4 draws from a counter supply
rendered as a string.  Every Auth operation threads an explicit state.
-/

namespace AuthService

set_option maxHeartbeats 1000000

/-- Modelled from the spec: bcrypt (external library, section 4.1).  A stored
hash embeds the random salt and determines the password it was derived from;
verification recomputes with the embedded salt, i.e. succeeds exactly when the
candidate equals the hashed password. -/
structure HashedPassword where
  salt : Nat
  pwd : String
deriving DecidableEq, Repr

/-- bcrypt.hashpw(password, salt) of auth.py, with the salt made explicit. -/
def hashpw (password : String) (salt : Nat) : HashedPassword :=
  { salt := salt, pwd := password }

/-- bcrypt.checkpw(provided, stored) of auth.py valid_login. -/
def checkpw (provided : String) (stored : HashedPassword) : Bool :=
  stored.pwd == provided

/-- Auth._hash_password: fresh salt (made explicit), then bcrypt.hashpw. -/
def _hash_password (password : String) (salt : Nat) : HashedPassword :=
  hashpw password salt

/-- Auth._generate_uuid: str(uuid.uuid4()), with the randomness made explicit
as a draw from a counter supply. -/
def _generate_uuid (n : Nat) : String :=
  "uuid-" ++ toString n

/-- Modelled from the spec: the User record of user.py, which is absent from
src/ (only db.py and auth.py import it).  Section 3 of the spec lists its five
fields: id, email, hashed_password, session_id, reset_token, the last two
nullable and null on creation. -/
structure User where
  id : Nat
  email : String
  hashed_password : HashedPassword
  session_id : Option String
  reset_token : Option String
deriving DecidableEq, Repr

/-- Modelled from the spec: the attribute names of the User class of user.py
(absent from src/), used by DB.update_user through hasattr(User, key).
Section 3 of the spec lists exactly these five fields. -/
def userAttributes : List String :=
  ["id", "email", "hashed_password", "session_id", "reset_token"]

/-- The keyword filters auth.py passes to DB.find_user_by.  filter_by with a
None value compares the column against NULL, hence the Option-valued fields. -/
inductive Query where
  | byEmail (e : String)
  | byId (i : Nat)
  | bySessionId (s : Option String)
  | byResetToken (t : Option String)
deriving DecidableEq, Repr

/-- Whether a user row satisfies a filter_by keyword. -/
def matchesQ (q : Query) (u : User) : Bool :=
  match q with
  | .byEmail e => u.email == e
  | .byId i => u.id == i
  | .bySessionId s => u.session_id == s
  | .byResetToken t => u.reset_token == t

/-- The exceptions the two modules raise.  noResultFound and
multipleResultsFound are the two failure modes of Query.one(); duplicateUser is
the ValueError of register_user; userNotFound is the bare ValueError of the
reset flows; invalidField is the ValueError of DB.update_user. -/
inductive Err where
  | noResultFound
  | multipleResultsFound
  | duplicateUser (email : String)
  | userNotFound
  | invalidField (key : String)
deriving DecidableEq, Repr

/-- A value passed as a keyword argument to DB.update_user. -/
inductive Value where
  | natV (n : Nat)
  | strV (s : String)
  | optStrV (s : Option String)
  | hashV (h : HashedPassword)
deriving DecidableEq, Repr

/-- setattr(user, key, value) for the attribute names of the User class. -/
def setattrU (u : User) (key : String) (v : Value) : User :=
  match key, v with
  | "id", .natV n => { u with id := n }
  | "email", .strV s => { u with email := s }
  | "hashed_password", .hashV h => { u with hashed_password := h }
  | "session_id", .optStrV o => { u with session_id := o }
  | "session_id", .strV s => { u with session_id := some s }
  | "reset_token", .optStrV o => { u with reset_token := o }
  | "reset_token", .strV s => { u with reset_token := some s }
  | _, _ => u

namespace DB

/-- DB.find_user_by: query(User).filter_by(kwargs).one().  A unique match is
returned, an empty result raises NoResultFound, several matches raise
MultipleResultsFound (only NoResultFound and InvalidRequestError are
re-raised explicitly; one() itself produces MultipleResultsFound). -/
def find_user_by (users : List User) (q : Query) : Except Err User :=
  match users.filter (matchesQ q) with
  | [] => .error .noResultFound
  | [u] => .ok u
  | _ :: _ :: _ => .error .multipleResultsFound

/-- Commit of update_user: the row found by id was mutated in place, so the
committed store replaces that row. -/
def replaceById (users : List User) (uid : Nat) (u' : User) : List User :=
  users.map fun v => if v.id == uid then u' else v

/-- The kwargs loop of DB.update_user: for each key, if hasattr(User, key) then
setattr, else raise ValueError (nothing is committed in that case). -/
def applyKwargs (u : User) : List (String × Value) → Except Err User
  | [] => .ok u
  | (k, v) :: rest =>
      if userAttributes.contains k then applyKwargs (setattrU u k v) rest
      else .error (.invalidField k)

/-- DB.update_user: find the row by id (NoResultFound propagates), apply the
keyword updates guarded by hasattr, commit. -/
def update_user (users : List User) (user_id : Nat) (kwargs : List (String × Value)) :
    Except Err (List User) :=
  match find_user_by users (.byId user_id) with
  | .error e => .error e
  | .ok u =>
      match applyKwargs u kwargs with
      | .error e => .error e
      | .ok u' => .ok (replaceById users user_id u')

end DB

/-- The explicit state threaded through the Auth operations: the rows of the
store, the autoincrement id counter of add_user, and the supplies feeding
_generate_uuid and the bcrypt salt. -/
structure AuthState where
  users : List User
  nextId : Nat
  nextUuid : Nat
  nextSalt : Nat
deriving DecidableEq, Repr

/-- Auth.register_user: find by email; if found raise
ValueError(f"User {email} already exists"); on NoResultFound fall through and
DB.add_user(email, _hash_password(password)), which inserts a fresh row with a
store-assigned id and null session_id and reset_token. -/
def register_user (st : AuthState) (email password : String) :
    Except Err User × AuthState :=
  match DB.find_user_by st.users (.byEmail email) with
  | .ok _ => (.error (.duplicateUser email), st)
  | .error .noResultFound =>
      let u : User :=
        { id := st.nextId, email := email,
          hashed_password := _hash_password password st.nextSalt,
          session_id := none, reset_token := none }
      (.ok u, { st with users := st.users ++ [u], nextId := st.nextId + 1,
                        nextSalt := st.nextSalt + 1 })
  | .error e => (.error e, st)

/-- Auth.valid_login: find by email; NoResultFound gives False; otherwise
bcrypt.checkpw decides, falling through to False on mismatch. -/
def valid_login (st : AuthState) (email password : String) : Except Err Bool :=
  match DB.find_user_by st.users (.byEmail email) with
  | .error .noResultFound => .ok false
  | .error e => .error e
  | .ok user =>
      if checkpw password user.hashed_password then .ok true else .ok false

/-- Auth.create_session: find by email (NoResultFound gives None), generate a
uuid, persist it as the session_id of the user via DB.update_user, return it. -/
def create_session (st : AuthState) (email : String) :
    Except Err (Option String) × AuthState :=
  match DB.find_user_by st.users (.byEmail email) with
  | .error .noResultFound => (.ok none, st)
  | .error e => (.error e, st)
  | .ok user =>
      let sid := _generate_uuid st.nextUuid
      let st' := { st with nextUuid := st.nextUuid + 1 }
      match DB.update_user st'.users user.id [("session_id", .optStrV (some sid))] with
      | .error .noResultFound => (.ok none, st')
      | .error e => (.error e, st')
      | .ok users' => (.ok (some sid), { st' with users := users' })

/-- Auth.get_user_from_session_id: None short-circuits to None; otherwise find
by session_id, NoResultFound giving None. -/
def get_user_from_session_id (st : AuthState) (session_id : Option String) :
    Except Err (Option User) :=
  match session_id with
  | none => .ok none
  | some s =>
      match DB.find_user_by st.users (.bySessionId (some s)) with
      | .error .noResultFound => .ok none
      | .error e => .error e
      | .ok u => .ok (some u)

/-- How many DB.find_user_by calls Auth.get_user_from_session_id performs on a
given argument: zero on None (the is-None guard returns first), one otherwise. -/
def session_lookup_count (session_id : Option String) : Nat :=
  match session_id with
  | none => 0
  | some _ => 1

/-- Auth.destroy_session: find by id, then DB.update_user(id, session_id=None);
NoResultFound anywhere in the try block is swallowed. -/
def destroy_session (st : AuthState) (user_id : Nat) : Except Err Unit × AuthState :=
  match DB.find_user_by st.users (.byId user_id) with
  | .error .noResultFound => (.ok (), st)
  | .error e => (.error e, st)
  | .ok user =>
      match DB.update_user st.users user.id [("session_id", .optStrV none)] with
      | .error .noResultFound => (.ok (), st)
      | .error e => (.error e, st)
      | .ok users' => (.ok (), { st with users := users' })

/-- Auth.get_reset_password_token: find by email, generate a uuid, persist it
as reset_token, return it; NoResultFound becomes a bare ValueError. -/
def get_reset_password_token (st : AuthState) (email : String) :
    Except Err String × AuthState :=
  match DB.find_user_by st.users (.byEmail email) with
  | .error .noResultFound => (.error .userNotFound, st)
  | .error e => (.error e, st)
  | .ok user =>
      let tok := _generate_uuid st.nextUuid
      let st' := { st with nextUuid := st.nextUuid + 1 }
      match DB.update_user st'.users user.id [("reset_token", .optStrV (some tok))] with
      | .error .noResultFound => (.error .userNotFound, st')
      | .error e => (.error e, st')
      | .ok users' => (.ok tok, { st' with users := users' })

/-- Auth.update_password: find by reset_token (filter_by(reset_token=None)
compares against NULL when the argument is None), then one DB.update_user call
setting the new hash and clearing reset_token; NoResultFound becomes a bare
ValueError. -/
def update_password (st : AuthState) (reset_token : Option String) (password : String) :
    Except Err Unit × AuthState :=
  match DB.find_user_by st.users (.byResetToken reset_token) with
  | .error .noResultFound => (.error .userNotFound, st)
  | .error e => (.error e, st)
  | .ok user =>
      let h := _hash_password password st.nextSalt
      let st' := { st with nextSalt := st.nextSalt + 1 }
      match DB.update_user st'.users user.id
          [("hashed_password", .hashV h), ("reset_token", .optStrV none)] with
      | .error .noResultFound => (.error .userNotFound, st')
      | .error e => (.error e, st')
      | .ok users' => (.ok (), { st' with users := users' })

end AuthService

namespace AuthService

/-! ## Helper lemmas about the store -/

/-- A singleton filter result pins down the member: it is in the list, it
satisfies the predicate, and it is the only element that does. -/
theorem filter_singleton_facts {p : User → Bool} {u : User} :
    ∀ {l : List User}, l.filter p = [u] →
      u ∈ l ∧ p u = true ∧ ∀ v ∈ l, p v = true → v = u := by
  intro l
  induction l with
  | nil => intro h; simp at h
  | cons a t ih =>
    intro h
    by_cases hp : p a
    · rw [List.filter_cons_of_pos hp] at h
      obtain ⟨rfl, ht⟩ := List.cons_eq_cons.mp h
      have hnone := List.filter_eq_nil_iff.mp ht
      refine ⟨List.mem_cons_self _ _, hp, ?_⟩
      intro v hv hpv
      rcases List.mem_cons.mp hv with rfl | hvt
      · rfl
      · exact absurd hpv (by simpa using hnone v hvt)
    · rw [List.filter_cons_of_neg hp] at h
      obtain ⟨hmem, hpu, huniq⟩ := ih h
      refine ⟨List.mem_cons_of_mem _ hmem, hpu, ?_⟩
      intro v hv hpv
      rcases List.mem_cons.mp hv with rfl | hvt
      · exact absurd hpv (by simpa using hp)
      · exact huniq v hvt hpv

/-- Replacing the row of an id that matches nothing leaves the store as is. -/
theorem replaceById_no_match {uid : Nat} {u' : User} :
    ∀ {l : List User}, l.filter (fun v => v.id == uid) = [] →
      DB.replaceById l uid u' = l := by
  intro l
  induction l with
  | nil => intro _; rfl
  | cons a t ih =>
    intro h
    have hall := List.filter_eq_nil_iff.mp h
    have ha : ¬((a.id == uid) = true) := by simpa using hall a (List.mem_cons_self a t)
    have ht : t.filter (fun v => v.id == uid) = [] := by
      rw [List.filter_eq_nil_iff]
      intro v hv
      exact hall v (List.mem_cons_of_mem _ hv)
    simp only [DB.replaceById, List.map_cons, if_neg ha]
    exact congrArg (a :: ·) (ih ht)

/-- Filtering after a commit that replaced the unique row of a given id: the
result is the replacement row alone or nothing, depending on whether it
satisfies the filter, provided no other row does. -/
theorem filter_replaceById {uid : Nat} {u u' : User} {p : User → Bool} :
    ∀ {l : List User},
      l.filter (fun v => v.id == uid) = [u] →
      (∀ v ∈ l, (v.id == uid) = false → p v = false) →
      (DB.replaceById l uid u').filter p = if p u' then [u'] else [] := by
  intro l
  induction l with
  | nil => intro h _; simp at h
  | cons a t ih =>
    intro hone hothers
    by_cases ha : (a.id == uid) = true
    · rw [List.filter_cons_of_pos (p := fun v : User => v.id == uid) ha] at hone
      obtain ⟨rfl, ht⟩ := List.cons_eq_cons.mp hone
      have htall := List.filter_eq_nil_iff.mp ht
      have hrest : (DB.replaceById t uid u').filter p = [] := by
        rw [replaceById_no_match ht, List.filter_eq_nil_iff]
        intro v hv
        have hid : (v.id == uid) = false := by simpa using htall v hv
        simp [hothers v (List.mem_cons_of_mem _ hv) hid]
      have hgoal : DB.replaceById (a :: t) uid u' = u' :: DB.replaceById t uid u' := by
        simp only [DB.replaceById, List.map_cons, if_pos ha]
      rw [hgoal, List.filter_cons, hrest]
    · rw [List.filter_cons_of_neg (p := fun v : User => v.id == uid) ha] at hone
      have ha' : (a.id == uid) = false := by simpa using ha
      have hpa : p a = false := hothers a (List.mem_cons_self a t) ha'
      have hothers' : ∀ v ∈ t, (v.id == uid) = false → p v = false := by
        intro v hv
        exact hothers v (List.mem_cons_of_mem _ hv)
      simp only [DB.replaceById, List.map_cons, if_neg ha]
      rw [List.filter_cons_of_neg (by simp [hpa])]
      exact ih hone hothers'

/-- Two successive commits on the same id collapse to the second, as long as
the first replacement keeps the id. -/
theorem replaceById_replaceById {uid : Nat} {u₁ u₂ : User} (h : (u₁.id == uid) = true) :
    ∀ l : List User,
      DB.replaceById (DB.replaceById l uid u₁) uid u₂ = DB.replaceById l uid u₂ := by
  intro l
  induction l with
  | nil => rfl
  | cons a t ih =>
    by_cases ha : (a.id == uid) = true
    · simp only [DB.replaceById, List.map_cons, if_pos ha, if_pos h] at ih ⊢
      exact congrArg (u₂ :: ·) ih
    · simp only [DB.replaceById, List.map_cons, if_neg ha] at ih ⊢
      exact congrArg (a :: ·) ih

/-- Rows whose id differs from the replaced one survive a commit unchanged. -/
theorem mem_replaceById_of_ne {uid : Nat} {u' v : User} {l : List User}
    (hv : v ∈ l) (hne : (v.id == uid) = false) :
    v ∈ DB.replaceById l uid u' := by
  have h := List.mem_map_of_mem (fun w => if w.id == uid then u' else w) hv
  simpa [DB.replaceById, hne] using h

/-- Generated tokens are never the empty string. -/
theorem uuid_ne_empty (n : Nat) : _generate_uuid n ≠ "" := by
  intro h
  have h2 := congrArg String.length h
  simp [_generate_uuid] at h2
  exact absurd h2.1 (by decide)

end AuthService

namespace AuthService

/-! ## Reduction lemmas for the query predicates -/

theorem matchesQ_byEmail (e : String) :
    matchesQ (.byEmail e) = fun u => u.email == e := rfl

theorem matchesQ_byId (i : Nat) :
    matchesQ (.byId i) = fun u => u.id == i := rfl

theorem matchesQ_bySessionId (s : Option String) :
    matchesQ (.bySessionId s) = fun u => u.session_id == s := rfl

theorem matchesQ_byResetToken (t : Option String) :
    matchesQ (.byResetToken t) = fun u => u.reset_token == t := rfl

/-! ## Claim theorems -/

/-- C4: registering an email that already has exactly one user in the store
fails with the duplicate-user ValueError and returns the store state completely
unchanged, so the first registration's record is untouched and no row is
added. -/
theorem register_user_duplicate (st : AuthState) (email pw : String) (u : User)
    (hone : st.users.filter (fun v => v.email == email) = [u]) :
    register_user st email pw = (.error (.duplicateUser email), st) := by
  unfold register_user DB.find_user_by
  simp only [matchesQ_byEmail]
  rw [hone]

/-- Witness for C4 at a concrete one-user store. -/
theorem register_user_duplicate_witness :
    ([({ id := 1, email := "a@x.com", hashed_password := { salt := 0, pwd := "p1" },
         session_id := none, reset_token := none } : User)].filter
        (fun v => v.email == "a@x.com") =
      [({ id := 1, email := "a@x.com", hashed_password := { salt := 0, pwd := "p1" },
          session_id := none, reset_token := none } : User)]) ∧
    register_user
      { users := [{ id := 1, email := "a@x.com",
                    hashed_password := { salt := 0, pwd := "p1" },
                    session_id := none, reset_token := none }],
        nextId := 2, nextUuid := 0, nextSalt := 1 } "a@x.com" "p2" =
      (.error (.duplicateUser "a@x.com"),
        { users := [{ id := 1, email := "a@x.com",
                      hashed_password := { salt := 0, pwd := "p1" },
                      session_id := none, reset_token := none }],
          nextId := 2, nextUuid := 0, nextSalt := 1 }) :=
  ⟨by decide,
   register_user_duplicate
     { users := [{ id := 1, email := "a@x.com",
                   hashed_password := { salt := 0, pwd := "p1" },
                   session_id := none, reset_token := none }],
       nextId := 2, nextUuid := 0, nextSalt := 1 } "a@x.com" "p2"
     { id := 1, email := "a@x.com", hashed_password := { salt := 0, pwd := "p1" },
       session_id := none, reset_token := none } (by decide)⟩

/-- C7: for a user id with exactly one row and a keyword that is not an
attribute of the User class, DB.update_user fails with the invalid-field
ValueError naming the keyword, surfacing it to the caller. -/
theorem update_user_invalid_field (l : List User) (uid : Nat) (u : User)
    (k : String) (v : Value)
    (hone : l.filter (fun w => w.id == uid) = [u])
    (hk : userAttributes.contains k = false) :
    DB.update_user l uid [(k, v)] = .error (.invalidField k) := by
  unfold DB.update_user DB.find_user_by
  simp only [matchesQ_byId]
  rw [hone]
  have hk' : k ∉ userAttributes := by simpa using hk
  simp [DB.applyKwargs, hk']

/-- Witness for C7: keyword "favourite_colour" on an existing user. -/
theorem update_user_invalid_field_witness :
    ([({ id := 1, email := "a@x.com", hashed_password := { salt := 0, pwd := "p1" },
         session_id := none, reset_token := none } : User)].filter
        (fun w => w.id == 1) =
      [({ id := 1, email := "a@x.com", hashed_password := { salt := 0, pwd := "p1" },
          session_id := none, reset_token := none } : User)]) ∧
    userAttributes.contains "favourite_colour" = false ∧
    DB.update_user
      [{ id := 1, email := "a@x.com", hashed_password := { salt := 0, pwd := "p1" },
         session_id := none, reset_token := none }] 1
      [("favourite_colour", .strV "red")] =
      .error (.invalidField "favourite_colour") :=
  ⟨by decide, by decide,
   update_user_invalid_field
     [{ id := 1, email := "a@x.com", hashed_password := { salt := 0, pwd := "p1" },
        session_id := none, reset_token := none }] 1
     { id := 1, email := "a@x.com", hashed_password := { salt := 0, pwd := "p1" },
       session_id := none, reset_token := none }
     "favourite_colour" (.strV "red") (by decide) (by decide)⟩

end AuthService

namespace AuthService

/-- C10: DB.update_user accepts every keyword that is an attribute of the User
class, including id and email, setting the field without an invalid-field
error; the error arises exactly for keywords that are not attributes of the
class. -/
theorem update_user_accepts_class_attributes (l : List User) (uid : Nat) (u : User)
    (n : Nat) (e : String) (h : HashedPassword) (o : Option String)
    (hone : l.filter (fun w => w.id == uid) = [u]) :
    DB.update_user l uid [("id", .natV n)] =
      .ok (DB.replaceById l uid { u with id := n }) ∧
    DB.update_user l uid [("email", .strV e)] =
      .ok (DB.replaceById l uid { u with email := e }) ∧
    DB.update_user l uid [("hashed_password", .hashV h)] =
      .ok (DB.replaceById l uid { u with hashed_password := h }) ∧
    DB.update_user l uid [("session_id", .optStrV o)] =
      .ok (DB.replaceById l uid { u with session_id := o }) ∧
    DB.update_user l uid [("reset_token", .optStrV o)] =
      .ok (DB.replaceById l uid { u with reset_token := o }) ∧
    ∀ k v, userAttributes.contains k = false →
      DB.update_user l uid [(k, v)] = .error (.invalidField k) := by
  refine ⟨?_, ?_, ?_, ?_, ?_, ?_⟩
  · unfold DB.update_user DB.find_user_by
    simp only [matchesQ_byId]
    rw [hone]
    simp [DB.applyKwargs, setattrU, userAttributes]
  · unfold DB.update_user DB.find_user_by
    simp only [matchesQ_byId]
    rw [hone]
    simp [DB.applyKwargs, setattrU, userAttributes]
  · unfold DB.update_user DB.find_user_by
    simp only [matchesQ_byId]
    rw [hone]
    simp [DB.applyKwargs, setattrU, userAttributes]
  · unfold DB.update_user DB.find_user_by
    simp only [matchesQ_byId]
    rw [hone]
    simp [DB.applyKwargs, setattrU, userAttributes]
  · unfold DB.update_user DB.find_user_by
    simp only [matchesQ_byId]
    rw [hone]
    simp [DB.applyKwargs, setattrU, userAttributes]
  · intro k v hk
    unfold DB.update_user DB.find_user_by
    simp only [matchesQ_byId]
    rw [hone]
    have hk' : k ∉ userAttributes := by simpa using hk
    simp [DB.applyKwargs, hk']

/-- Witness for C10 at a concrete one-user store. -/
theorem update_user_accepts_class_attributes_witness :
    ([({ id := 1, email := "a@x.com", hashed_password := { salt := 0, pwd := "p1" },
         session_id := none, reset_token := none } : User)].filter
        (fun w => w.id == 1) =
      [({ id := 1, email := "a@x.com", hashed_password := { salt := 0, pwd := "p1" },
          session_id := none, reset_token := none } : User)]) ∧
    DB.update_user
      [{ id := 1, email := "a@x.com", hashed_password := { salt := 0, pwd := "p1" },
         session_id := none, reset_token := none }] 1 [("id", .natV 9)] =
      .ok (DB.replaceById
        [{ id := 1, email := "a@x.com", hashed_password := { salt := 0, pwd := "p1" },
           session_id := none, reset_token := none }] 1
        { id := 9, email := "a@x.com", hashed_password := { salt := 0, pwd := "p1" },
          session_id := none, reset_token := none }) :=
  ⟨by decide,
   ((update_user_accepts_class_attributes
     [{ id := 1, email := "a@x.com", hashed_password := { salt := 0, pwd := "p1" },
        session_id := none, reset_token := none }] 1
     { id := 1, email := "a@x.com", hashed_password := { salt := 0, pwd := "p1" },
       session_id := none, reset_token := none }
     9 "b@x.com" { salt := 7, pwd := "q" } (some "s") (by decide)).1)⟩

/-- C5 counterexample: the code guards only a None session_id.  In a store
whose single user has the empty string as session_id, calling
get_user_from_session_id with the empty string performs the lookup (one
find_user_by call, not zero) and returns that user rather than None. -/
theorem session_empty_string_counterexample :
    get_user_from_session_id
      { users := [{ id := 1, email := "a@x.com",
                    hashed_password := { salt := 0, pwd := "p1" },
                    session_id := some "", reset_token := none }],
        nextId := 2, nextUuid := 0, nextSalt := 1 } (some "") =
      .ok (some { id := 1, email := "a@x.com",
                  hashed_password := { salt := 0, pwd := "p1" },
                  session_id := some "", reset_token := none }) ∧
    session_lookup_count (some "") = 1 ∧
    get_user_from_session_id
      { users := [{ id := 1, email := "a@x.com",
                    hashed_password := { salt := 0, pwd := "p1" },
                    session_id := some "", reset_token := none }],
        nextId := 2, nextUuid := 0, nextSalt := 1 } (some "") ≠ .ok none := by
  refine ⟨rfl, rfl, ?_⟩
  intro hcontra
  simp [get_user_from_session_id, DB.find_user_by, matchesQ] at hcontra

/-- C5 (amended): only a None session_id is returned early with no store
lookup; the empty string is not short-circuited, a lookup is performed for it,
and None comes back only because no user carries the empty session_id. -/
theorem session_id_none_guard (st : AuthState) (s : String)
    (hnone : st.users.filter (fun v => v.session_id == some s) = []) :
    get_user_from_session_id st none = .ok none ∧
    session_lookup_count none = 0 ∧
    session_lookup_count (some s) = 1 ∧
    get_user_from_session_id st (some s) = .ok none := by
  refine ⟨rfl, rfl, rfl, ?_⟩
  unfold get_user_from_session_id DB.find_user_by
  simp only [matchesQ_bySessionId]
  rw [hnone]

/-- Witness for the amended C5 on an empty store and the empty string. -/
theorem session_id_none_guard_witness :
    (([] : List User).filter (fun v => v.session_id == some "") = []) ∧
    (get_user_from_session_id
        { users := [], nextId := 1, nextUuid := 0, nextSalt := 0 } none = .ok none ∧
      session_lookup_count none = 0 ∧
      session_lookup_count (some "") = 1 ∧
      get_user_from_session_id
        { users := [], nextId := 1, nextUuid := 0, nextSalt := 0 } (some "") = .ok none) :=
  ⟨by decide,
   session_id_none_guard
     { users := [], nextId := 1, nextUuid := 0, nextSalt := 0 } "" (by decide)⟩

end AuthService

namespace AuthService

/-- C1: on a store with no user for the email, register_user succeeds, after
which valid_login accepts the registered password and rejects every different
password. -/
theorem register_then_valid_login (st : AuthState) (email password wrong : String)
    (hfresh : st.users.filter (fun v => v.email == email) = [])
    (hw : wrong ≠ password) :
    ∃ u st', register_user st email password = (.ok u, st') ∧
      valid_login st' email password = .ok true ∧
      valid_login st' email wrong = .ok false := by
  refine ⟨{ id := st.nextId, email := email,
            hashed_password := _hash_password password st.nextSalt,
            session_id := none, reset_token := none },
          { st with
              users := st.users ++
                [{ id := st.nextId, email := email,
                   hashed_password := _hash_password password st.nextSalt,
                   session_id := none, reset_token := none }],
              nextId := st.nextId + 1, nextSalt := st.nextSalt + 1 },
          ?_, ?_, ?_⟩
  · unfold register_user DB.find_user_by
    simp only [matchesQ_byEmail]
    rw [hfresh]
  · unfold valid_login DB.find_user_by
    simp only [matchesQ_byEmail]
    rw [List.filter_append, hfresh]
    simp [checkpw, _hash_password, hashpw]
  · unfold valid_login DB.find_user_by
    simp only [matchesQ_byEmail]
    rw [List.filter_append, hfresh]
    have hbeq : (password == wrong) = false := beq_eq_false_iff_ne.mpr (Ne.symm hw)
    simp [checkpw, _hash_password, hashpw, hbeq]

/-- Witness for C1 on an empty store. -/
theorem register_then_valid_login_witness :
    (([] : List User).filter (fun v => v.email == "a@x.com") = []) ∧
    "p2" ≠ "p1" ∧
    (∃ u st', register_user
        { users := [], nextId := 1, nextUuid := 0, nextSalt := 0 } "a@x.com" "p1" =
        (.ok u, st') ∧
      valid_login st' "a@x.com" "p1" = .ok true ∧
      valid_login st' "a@x.com" "p2" = .ok false) :=
  ⟨by decide, by decide,
   register_then_valid_login
     { users := [], nextId := 1, nextUuid := 0, nextSalt := 0 } "a@x.com" "p1" "p2"
     (by decide) (by decide)⟩

end AuthService

namespace AuthService

/-- C8: update_password performs no None-guard on the reset token.  Calling it
with None looks up a user whose reset_token is NULL, so when exactly one stored
user has no pending reset, that user's password hash is replaced and the call
succeeds instead of failing with the not-found ValueError. -/
theorem update_password_none_token (st : AuthState) (pw : String) (u : User)
    (hone : st.users.filter (fun v => v.reset_token == none) = [u])
    (hid : st.users.filter (fun v => v.id == u.id) = [u]) :
    update_password st none pw =
      (.ok (), { st with
        users := DB.replaceById st.users u.id
          { u with hashed_password := _hash_password pw st.nextSalt,
                   reset_token := none },
        nextSalt := st.nextSalt + 1 }) := by
  unfold update_password DB.update_user DB.find_user_by
  simp only [matchesQ_byResetToken, matchesQ_byId]
  rw [hone]
  simp only []
  rw [hid]
  simp [DB.applyKwargs, setattrU, userAttributes]

/-- Witness for C8: one stored user, registered but with no pending reset. -/
theorem update_password_none_token_witness :
    ([({ id := 1, email := "a@x.com", hashed_password := { salt := 0, pwd := "p1" },
         session_id := none, reset_token := none } : User)].filter
        (fun v => v.reset_token == none) =
      [({ id := 1, email := "a@x.com", hashed_password := { salt := 0, pwd := "p1" },
          session_id := none, reset_token := none } : User)]) ∧
    update_password
      { users := [{ id := 1, email := "a@x.com",
                    hashed_password := { salt := 0, pwd := "p1" },
                    session_id := none, reset_token := none }],
        nextId := 2, nextUuid := 0, nextSalt := 1 } none "hacked" =
      (.ok (), { users := [{ id := 1, email := "a@x.com",
                             hashed_password := { salt := 1, pwd := "hacked" },
                             session_id := none, reset_token := none }],
                 nextId := 2, nextUuid := 0, nextSalt := 2 }) :=
  ⟨by decide,
   update_password_none_token
     { users := [{ id := 1, email := "a@x.com",
                   hashed_password := { salt := 0, pwd := "p1" },
                   session_id := none, reset_token := none }],
       nextId := 2, nextUuid := 0, nextSalt := 1 } "hacked"
     { id := 1, email := "a@x.com", hashed_password := { salt := 0, pwd := "p1" },
       session_id := none, reset_token := none } (by decide) (by decide)⟩

end AuthService

namespace AuthService

/-- C9: a successful create_session modifies only the session_id field of the
matched user.  The committed store is exactly the old store with that one row
replaced by a copy differing only in session_id, so the id, email,
hashed_password and reset_token of that user, and every other user's full
record, are unchanged. -/
theorem create_session_frame (st : AuthState) (email : String) (u : User)
    (hemail : st.users.filter (fun v => v.email == email) = [u])
    (hid : st.users.filter (fun v => v.id == u.id) = [u]) :
    ∃ st' u',
      create_session st email = (.ok (some (_generate_uuid st.nextUuid)), st') ∧
      st'.users = DB.replaceById st.users u.id u' ∧
      u'.id = u.id ∧ u'.email = u.email ∧
      u'.hashed_password = u.hashed_password ∧
      u'.reset_token = u.reset_token ∧
      u'.session_id = some (_generate_uuid st.nextUuid) ∧
      (∀ v ∈ st.users, (v.id == u.id) = false → v ∈ st'.users) ∧
      st'.nextId = st.nextId := by
  refine ⟨{ st with
              users := DB.replaceById st.users u.id
                { u with session_id := some (_generate_uuid st.nextUuid) },
              nextUuid := st.nextUuid + 1 },
          { u with session_id := some (_generate_uuid st.nextUuid) },
          ?_, rfl, rfl, rfl, rfl, rfl, rfl, ?_, rfl⟩
  · unfold create_session DB.update_user DB.find_user_by
    simp only [matchesQ_byEmail, matchesQ_byId]
    rw [hemail]
    simp only []
    rw [hid]
    simp [DB.applyKwargs, setattrU, userAttributes]
  · intro v hv hne
    exact mem_replaceById_of_ne hv hne

/-- Witness for C9 at a concrete two-user store. -/
theorem create_session_frame_witness :
    (([({ id := 1, email := "a@x.com", hashed_password := { salt := 0, pwd := "p1" },
          session_id := none, reset_token := none } : User),
       ({ id := 2, email := "b@x.com", hashed_password := { salt := 1, pwd := "p2" },
          session_id := some "s2", reset_token := none } : User)].filter
        (fun v => v.email == "a@x.com")) =
      [({ id := 1, email := "a@x.com", hashed_password := { salt := 0, pwd := "p1" },
          session_id := none, reset_token := none } : User)]) ∧
    (([({ id := 1, email := "a@x.com", hashed_password := { salt := 0, pwd := "p1" },
          session_id := none, reset_token := none } : User),
       ({ id := 2, email := "b@x.com", hashed_password := { salt := 1, pwd := "p2" },
          session_id := some "s2", reset_token := none } : User)].filter
        (fun v => v.id == 1)) =
      [({ id := 1, email := "a@x.com", hashed_password := { salt := 0, pwd := "p1" },
          session_id := none, reset_token := none } : User)]) ∧
    (∃ st' u',
      create_session
        { users := [{ id := 1, email := "a@x.com",
                      hashed_password := { salt := 0, pwd := "p1" },
                      session_id := none, reset_token := none },
                    { id := 2, email := "b@x.com",
                      hashed_password := { salt := 1, pwd := "p2" },
                      session_id := some "s2", reset_token := none }],
          nextId := 3, nextUuid := 5, nextSalt := 2 } "a@x.com" =
        (.ok (some (_generate_uuid 5)), st') ∧
      st'.users = DB.replaceById
        [{ id := 1, email := "a@x.com",
           hashed_password := { salt := 0, pwd := "p1" },
           session_id := none, reset_token := none },
         { id := 2, email := "b@x.com",
           hashed_password := { salt := 1, pwd := "p2" },
           session_id := some "s2", reset_token := none }] 1 u' ∧
      u'.id = 1 ∧ u'.email = "a@x.com" ∧
      u'.hashed_password = { salt := 0, pwd := "p1" } ∧
      u'.reset_token = none ∧
      u'.session_id = some (_generate_uuid 5) ∧
      (∀ v ∈ [({ id := 1, email := "a@x.com",
                 hashed_password := { salt := 0, pwd := "p1" },
                 session_id := none, reset_token := none } : User),
              ({ id := 2, email := "b@x.com",
                 hashed_password := { salt := 1, pwd := "p2" },
                 session_id := some "s2", reset_token := none } : User)],
        (v.id == 1) = false → v ∈ st'.users) ∧
      st'.nextId = 3) :=
  ⟨by decide, by decide,
   create_session_frame
     { users := [{ id := 1, email := "a@x.com",
                   hashed_password := { salt := 0, pwd := "p1" },
                   session_id := none, reset_token := none },
                 { id := 2, email := "b@x.com",
                   hashed_password := { salt := 1, pwd := "p2" },
                   session_id := some "s2", reset_token := none }],
       nextId := 3, nextUuid := 5, nextSalt := 2 } "a@x.com"
     { id := 1, email := "a@x.com", hashed_password := { salt := 0, pwd := "p1" },
       session_id := none, reset_token := none } (by decide) (by decide)⟩

end AuthService

namespace AuthService

/-- C6: destroy_session never fails.  On an id with no user it is a silent
no-op returning the state unchanged (so calling it twice succeeds both times),
and on a user with an active session it clears session_id, is idempotent, and
afterwards get_user_from_session_id on the old token returns None. -/
theorem destroy_session_props (st : AuthState) (uid : Nat) :
    (st.users.filter (fun v => v.id == uid) = [] →
      destroy_session st uid = (.ok (), st)) ∧
    (∀ u tok, st.users.filter (fun v => v.id == uid) = [u] →
      u.session_id = some tok →
      st.users.filter (fun v => v.session_id == some tok) = [u] →
      ∃ st', destroy_session st uid = (.ok (), st') ∧
        destroy_session st' uid = (.ok (), st') ∧
        get_user_from_session_id st' (some tok) = .ok none) := by
  constructor
  · intro hempty
    unfold destroy_session DB.find_user_by
    simp only [matchesQ_byId]
    rw [hempty]
  · intro u tok hone hsess hufilter
    have huid : u.id = uid := by
      have := (filter_singleton_facts hone).2.1
      simpa using this
    subst huid
    have huniq := (filter_singleton_facts hufilter).2.2
    have hone' : (DB.replaceById st.users u.id
        { u with session_id := none }).filter (fun v => v.id == u.id) =
        [{ u with session_id := none }] := by
      rw [filter_replaceById hone (fun v hv hne => hne)]
      simp
    have hsessfilter : (DB.replaceById st.users u.id
        { u with session_id := none }).filter
          (fun v => v.session_id == some tok) = [] := by
      rw [filter_replaceById hone ?_]
      · simp
      · intro v hv hne
        by_cases hb : (v.session_id == some tok) = true
        · have hvu : v = u := huniq v hv hb
          rw [hvu] at hne
          simp at hne
        · simpa using hb
    have hcollapse : DB.replaceById
        (DB.replaceById st.users u.id { u with session_id := none }) u.id
        { u with session_id := none } =
        DB.replaceById st.users u.id { u with session_id := none } :=
      replaceById_replaceById (by simp) st.users
    refine ⟨{ st with users := (DB.replaceById st.users u.id
                { u with session_id := none }) }, ?_, ?_, ?_⟩
    · unfold destroy_session DB.update_user DB.find_user_by
      simp only [matchesQ_byId]
      rw [hone]
      simp only []
      rw [hone]
      simp [DB.applyKwargs, setattrU, userAttributes]
    · simp [destroy_session, DB.update_user, DB.find_user_by, matchesQ_byId,
            hone', DB.applyKwargs, setattrU, userAttributes, hcollapse]
    · unfold get_user_from_session_id DB.find_user_by
      simp only [matchesQ_bySessionId]
      rw [hsessfilter]

/-- Witness for C6: both branches at a concrete one-user store. -/
theorem destroy_session_props_witness :
    (([({ id := 1, email := "a@x.com", hashed_password := { salt := 0, pwd := "p1" },
          session_id := some "tok1", reset_token := none } : User)].filter
        (fun v => v.id == 7)) = []) ∧
    (destroy_session
        { users := [{ id := 1, email := "a@x.com",
                      hashed_password := { salt := 0, pwd := "p1" },
                      session_id := some "tok1", reset_token := none }],
          nextId := 2, nextUuid := 1, nextSalt := 1 } 7 =
      (.ok (), { users := [{ id := 1, email := "a@x.com",
                             hashed_password := { salt := 0, pwd := "p1" },
                             session_id := some "tok1", reset_token := none }],
                 nextId := 2, nextUuid := 1, nextSalt := 1 })) ∧
    (∃ st', destroy_session
        { users := [{ id := 1, email := "a@x.com",
                      hashed_password := { salt := 0, pwd := "p1" },
                      session_id := some "tok1", reset_token := none }],
          nextId := 2, nextUuid := 1, nextSalt := 1 } 1 = (.ok (), st') ∧
      destroy_session st' 1 = (.ok (), st') ∧
      get_user_from_session_id st' (some "tok1") = .ok none) :=
  ⟨by decide,
   (destroy_session_props
     { users := [{ id := 1, email := "a@x.com",
                   hashed_password := { salt := 0, pwd := "p1" },
                   session_id := some "tok1", reset_token := none }],
       nextId := 2, nextUuid := 1, nextSalt := 1 } 7).1 (by decide),
   (destroy_session_props
     { users := [{ id := 1, email := "a@x.com",
                   hashed_password := { salt := 0, pwd := "p1" },
                   session_id := some "tok1", reset_token := none }],
       nextId := 2, nextUuid := 1, nextSalt := 1 } 1).2
     { id := 1, email := "a@x.com", hashed_password := { salt := 0, pwd := "p1" },
       session_id := some "tok1", reset_token := none } "tok1"
     (by decide) (by decide) (by decide)⟩

end AuthService

namespace AuthService

/-- C2: create_session on an unknown email returns None with the state
unchanged; on an email with exactly one user it returns the freshly generated
non-empty token, persists it as that user's session_id (overwriting any prior
session, since the whole field is replaced), and resolving that token
afterwards returns the same user record. -/
theorem create_session_then_resolve (st : AuthState) (email : String) :
    (st.users.filter (fun v => v.email == email) = [] →
      create_session st email = (.ok none, st)) ∧
    (∀ u, st.users.filter (fun v => v.email == email) = [u] →
      st.users.filter (fun v => v.id == u.id) = [u] →
      st.users.all
        (fun v => !(v.session_id == some (_generate_uuid st.nextUuid))) = true →
      ∃ st',
        create_session st email =
          (.ok (some (_generate_uuid st.nextUuid)), st') ∧
        _generate_uuid st.nextUuid ≠ "" ∧
        st'.users = DB.replaceById st.users u.id
          { u with session_id := some (_generate_uuid st.nextUuid) } ∧
        get_user_from_session_id st' (some (_generate_uuid st.nextUuid)) =
          .ok (some { u with session_id := some (_generate_uuid st.nextUuid) })) := by
  constructor
  · intro hempty
    unfold create_session DB.find_user_by
    simp only [matchesQ_byEmail]
    rw [hempty]
  · intro u hemail hid hfresh
    have hfresh' : ∀ v ∈ st.users,
        (v.session_id == some (_generate_uuid st.nextUuid)) = false := by
      intro v hv
      have h1 := List.all_eq_true.mp hfresh v hv
      simpa using h1
    have hsessfilter : (DB.replaceById st.users u.id
        { u with session_id := some (_generate_uuid st.nextUuid) }).filter
          (fun v => v.session_id == some (_generate_uuid st.nextUuid)) =
        [{ u with session_id := some (_generate_uuid st.nextUuid) }] := by
      rw [filter_replaceById hid (fun v hv _ => hfresh' v hv)]
      simp
    refine ⟨⟨DB.replaceById st.users u.id { u with session_id := some (_generate_uuid st.nextUuid) }, st.nextId, st.nextUuid + 1, st.nextSalt⟩, ?_, uuid_ne_empty st.nextUuid, rfl, ?_⟩
    · unfold create_session DB.update_user DB.find_user_by
      simp only [matchesQ_byEmail, matchesQ_byId]
      rw [hemail]
      simp only []
      rw [hid]
      simp [DB.applyKwargs, setattrU, userAttributes]
    · unfold get_user_from_session_id DB.find_user_by
      simp only [matchesQ_bySessionId]
      rw [hsessfilter]

/-- Witness for C2: both branches, at an empty store and a one-user store. -/
theorem create_session_then_resolve_witness :
    create_session { users := [], nextId := 1, nextUuid := 0, nextSalt := 0 }
      "ghost@x.com" =
      (.ok none, { users := [], nextId := 1, nextUuid := 0, nextSalt := 0 }) ∧
    (∃ st',
      create_session
        { users := [{ id := 1, email := "a@x.com",
                      hashed_password := { salt := 0, pwd := "p1" },
                      session_id := some "old-session", reset_token := none }],
          nextId := 2, nextUuid := 4, nextSalt := 1 } "a@x.com" =
        (.ok (some (_generate_uuid 4)), st') ∧
      _generate_uuid 4 ≠ "" ∧
      st'.users = DB.replaceById
        [{ id := 1, email := "a@x.com",
           hashed_password := { salt := 0, pwd := "p1" },
           session_id := some "old-session", reset_token := none }] 1
        { id := 1, email := "a@x.com",
          hashed_password := { salt := 0, pwd := "p1" },
          session_id := some (_generate_uuid 4), reset_token := none } ∧
      get_user_from_session_id st' (some (_generate_uuid 4)) =
        .ok (some { id := 1, email := "a@x.com",
                    hashed_password := { salt := 0, pwd := "p1" },
                    session_id := some (_generate_uuid 4),
                    reset_token := none })) :=
  ⟨(create_session_then_resolve
      { users := [], nextId := 1, nextUuid := 0, nextSalt := 0 }
      "ghost@x.com").1 (by decide),
   (create_session_then_resolve
      { users := [{ id := 1, email := "a@x.com",
                    hashed_password := { salt := 0, pwd := "p1" },
                    session_id := some "old-session", reset_token := none }],
        nextId := 2, nextUuid := 4, nextSalt := 1 } "a@x.com").2
     { id := 1, email := "a@x.com", hashed_password := { salt := 0, pwd := "p1" },
       session_id := some "old-session", reset_token := none }
     (by decide) (by decide) (by decide)⟩

end AuthService

namespace AuthService

/-- C3: for a user registered with the old password and holding a reset token
from get_reset_password_token, update_password with that token succeeds and in
the same update replaces the hash and clears the token; afterwards valid_login
accepts the new password and rejects the old one, and reusing the consumed
token in update_password fails with the not-found ValueError. -/
theorem reset_password_flow (st : AuthState) (email oldPw newPw pw2 : String)
    (u : User)
    (hemail : st.users.filter (fun v => v.email == email) = [u])
    (hid : st.users.filter (fun v => v.id == u.id) = [u])
    (_hpw : u.hashed_password.pwd = oldPw)
    (hfresh : st.users.all
      (fun v => !(v.reset_token == some (_generate_uuid st.nextUuid))) = true)
    (hne : oldPw ≠ newPw) :
    ∃ st₁ st₂,
      get_reset_password_token st email =
        (.ok (_generate_uuid st.nextUuid), st₁) ∧
      update_password st₁ (some (_generate_uuid st.nextUuid)) newPw =
        (.ok (), st₂) ∧
      valid_login st₂ email newPw = .ok true ∧
      valid_login st₂ email oldPw = .ok false ∧
      (update_password st₂ (some (_generate_uuid st.nextUuid)) pw2).1 =
        .error .userNotFound := by
  have hemailtrue : (u.email == email) = true := (filter_singleton_facts hemail).2.1
  have hemailuniq := (filter_singleton_facts hemail).2.2
  have hfresh' : ∀ v ∈ st.users,
      (v.reset_token == some (_generate_uuid st.nextUuid)) = false := by
    intro v hv
    have h1 := List.all_eq_true.mp hfresh v hv
    simpa using h1
  have hothersR : ∀ v ∈ st.users, (v.id == u.id) = false →
      (v.reset_token == some (_generate_uuid st.nextUuid)) = false :=
    fun v hv _ => hfresh' v hv
  have hothersE : ∀ v ∈ st.users, (v.id == u.id) = false →
      (v.email == email) = false := by
    intro v hv hneid
    by_cases hb : (v.email == email) = true
    · have hvu := hemailuniq v hv hb
      rw [hvu] at hneid
      simp at hneid
    · simpa using hb
  have hf1 : (DB.replaceById st.users u.id
      { u with reset_token := some (_generate_uuid st.nextUuid) }).filter
        (fun v => v.reset_token == some (_generate_uuid st.nextUuid)) =
      [{ u with reset_token := some (_generate_uuid st.nextUuid) }] := by
    rw [filter_replaceById hid hothersR]
    simp
  have hf2 : (DB.replaceById st.users u.id
      { u with reset_token := some (_generate_uuid st.nextUuid) }).filter
        (fun v => v.id == u.id) =
      [{ u with reset_token := some (_generate_uuid st.nextUuid) }] := by
    rw [filter_replaceById hid (fun v hv hne => hne)]
    simp
  have hcollapse : DB.replaceById (DB.replaceById st.users u.id
      { u with reset_token := some (_generate_uuid st.nextUuid) }) u.id
      { u with hashed_password := _hash_password newPw st.nextSalt,
               reset_token := none } =
      DB.replaceById st.users u.id
        { u with hashed_password := _hash_password newPw st.nextSalt,
                 reset_token := none } :=
    replaceById_replaceById (by simp) st.users
  have hf3 : (DB.replaceById st.users u.id
      { u with hashed_password := _hash_password newPw st.nextSalt,
               reset_token := none }).filter
        (fun v => v.email == email) =
      [{ u with hashed_password := _hash_password newPw st.nextSalt,
                reset_token := none }] := by
    rw [filter_replaceById hid hothersE]
    simp [hemailtrue]
  have hf4 : (DB.replaceById st.users u.id
      { u with hashed_password := _hash_password newPw st.nextSalt,
               reset_token := none }).filter
        (fun v => v.reset_token == some (_generate_uuid st.nextUuid)) = [] := by
    rw [filter_replaceById hid hothersR]
    simp
  have hnewold : newPw ≠ oldPw := Ne.symm hne
  simp only [_hash_password, hashpw] at hf3
  refine ⟨⟨DB.replaceById st.users u.id { u with reset_token := some (_generate_uuid st.nextUuid) }, st.nextId, st.nextUuid + 1, st.nextSalt⟩,
          ⟨DB.replaceById st.users u.id { u with hashed_password := _hash_password newPw st.nextSalt, reset_token := none }, st.nextId, st.nextUuid + 1, st.nextSalt + 1⟩,
          ?_, ?_, ?_, ?_, ?_⟩
  · unfold get_reset_password_token DB.update_user DB.find_user_by
    simp only [matchesQ_byEmail, matchesQ_byId]
    rw [hemail]
    simp only []
    rw [hid]
    simp [DB.applyKwargs, setattrU, userAttributes]
  · simp [update_password, DB.update_user, DB.find_user_by,
          matchesQ_byResetToken, matchesQ_byId, hf1, hf2,
          DB.applyKwargs, setattrU, userAttributes, hcollapse]
  · simp [valid_login, DB.find_user_by, matchesQ_byEmail, hf3, checkpw,
          _hash_password, hashpw]
  · simp [valid_login, DB.find_user_by, matchesQ_byEmail, hf3, checkpw,
          _hash_password, hashpw, hnewold]
  · simp [update_password, DB.find_user_by, matchesQ_byResetToken, hf4]

end AuthService

namespace AuthService

/-- Witness for C3 at a concrete one-user store registered with "old". -/
theorem reset_password_flow_witness :
    (([({ id := 1, email := "a@x.com", hashed_password := { salt := 0, pwd := "old" },
          session_id := none, reset_token := none } : User)].filter
        (fun v => v.email == "a@x.com")) =
      [({ id := 1, email := "a@x.com", hashed_password := { salt := 0, pwd := "old" },
          session_id := none, reset_token := none } : User)]) ∧
    "old" ≠ "new" ∧
    (∃ st₁ st₂,
      get_reset_password_token
        { users := [{ id := 1, email := "a@x.com",
                      hashed_password := { salt := 0, pwd := "old" },
                      session_id := none, reset_token := none }],
          nextId := 2, nextUuid := 0, nextSalt := 1 } "a@x.com" =
        (.ok (_generate_uuid 0), st₁) ∧
      update_password st₁ (some (_generate_uuid 0)) "new" = (.ok (), st₂) ∧
      valid_login st₂ "a@x.com" "new" = .ok true ∧
      valid_login st₂ "a@x.com" "old" = .ok false ∧
      (update_password st₂ (some (_generate_uuid 0)) "again").1 =
        .error .userNotFound) :=
  ⟨by decide, by decide,
   reset_password_flow
     { users := [{ id := 1, email := "a@x.com",
                   hashed_password := { salt := 0, pwd := "old" },
                   session_id := none, reset_token := none }],
       nextId := 2, nextUuid := 0, nextSalt := 1 } "a@x.com" "old" "new" "again"
     { id := 1, email := "a@x.com", hashed_password := { salt := 0, pwd := "old" },
       session_id := none, reset_token := none }
     (by decide) (by decide) (by decide) (by decide) (by decide)⟩

end AuthService
